import Mathlib

/-!
Verification of the Budyko–Sellers energy-balance model (EBM) notebook.

The source is the function `budyko_sellers_time_dep(XXS, insol, DT, N)` together
with the cost computation `J = np.sqrt(np.sum((T_final - TARGET_DT - 273.0)**2))`.
We give a shallow embedding over exact real arithmetic:

* a list-level model (`budyko_sellers_time_dep`, `stepE`, `bops`, `fdiffL`,
  `npLinspace`) that follows the numpy code line by line, including 1-D
  broadcasting and the index error raised by `DX = X[1] - X[0]` when the grid
  has fewer than two cells — fallible operations return `Except NpError`;
* an index-level model (`Xedges`, `X`, `DX`, `LAT`, `alpha0`, `ALPHA`, `emiss`,
  `FDIFF`, `Tinit`, `stepF`, `simulate`) of the same arithmetic, used to state
  per-band properties, and proved to agree with the list-level model on
  well-formed inputs (`budyko_ok`).
-/

namespace EBM

noncomputable section

/-- `np.radians`: degrees to radians. -/
def radians (d : ℝ) : ℝ := d * Real.pi / 180

/-- `np.degrees`: radians to degrees. -/
def degrees (r : ℝ) : ℝ := r * 180 / Real.pi

/-- Stefan–Boltzmann constant, `SIGMA = 5.67e-8` in the source. -/
def SIGMA : ℝ := 5.67e-8

/-- Baseline emissivity, `EPSILON = 0.63` in the source. -/
def EPSILON : ℝ := 0.63

/-- Diffusion coefficient, `DIFF = 0.6` in the source. -/
def DIFF : ℝ := 0.6

/-- `np.linspace a b n`: `n` evenly spaced points from `a` to `b` inclusive
(numpy returns `[a]` when `n = 1` and the empty array when `n = 0`). -/
def npLinspace (a b : ℝ) (n : ℕ) : List ℝ :=
  if n = 1 then [a]
  else (List.range n).map (fun k : ℕ => a + (b - a) * (k : ℝ) / ((n : ℝ) - 1))

/-- Errors the numpy code can raise: an out-of-range index
(`X[1]` when the grid has fewer than two cells) or a broadcast mismatch. -/
inductive NpError
  | indexError
  | broadcastError
deriving DecidableEq

/-- numpy elementwise binary operation on 1-D arrays with broadcasting:
equal lengths act pointwise, a length-1 array broadcasts against the other,
and any other length mismatch raises a broadcast error. -/
def bops (f : ℝ → ℝ → ℝ) (xs ys : List ℝ) : Except NpError (List ℝ) :=
  if xs.length = ys.length then .ok (List.zipWith f xs ys)
  else if xs.length = 1 then .ok (ys.map (fun y => f (xs.headD 0) y))
  else if ys.length = 1 then .ok (xs.map (fun x => f x (ys.headD 0)))
  else .error .broadcastError

/-- The diffusion loop of the source, filling `FDIFF = np.zeros_like(T)`:
`FDIFF[0] = DIFF*(1 - Xedges[1]**2)*(T[1]-T[0])/(DX*DX)`,
`FDIFF[N-1] = -DIFF*(1 - Xedges[N]**2)*(T[N-1]-T[N-2])/(DX*DX)`, and interior
bands use the centered difference. On all reachable states `T` has length `N`
and every index is in range, so `getD` with default `0` is exact. -/
def fdiffL (Xedges : List ℝ) (DX : ℝ) (N : ℕ) (T : List ℝ) : List ℝ :=
  (List.range T.length).map (fun i =>
    if i < N then
      if i = 0 then
        DIFF * (1 - (Xedges.getD 1 0) ^ 2) * (T.getD (i + 1) 0 - T.getD i 0) / (DX * DX)
      else if i = N - 1 then
        -DIFF * (1 - (Xedges.getD N 0) ^ 2) * (T.getD i 0 - T.getD (i - 1) 0) / (DX * DX)
      else
        DIFF * ((1 - (Xedges.getD (i + 1) 0) ^ 2) * (T.getD (i + 1) 0 - T.getD i 0)
          - (1 - (Xedges.getD i 0) ^ 2) * (T.getD i 0 - T.getD (i - 1) 0)) / (DX * DX)
    else 0)

/-- One iteration of the time loop of `budyko_sellers_time_dep`, translated
line by line (albedo and emissivity via the logit/logistic round trip, absorbed
and outgoing fluxes, the diffusion stencil, and the explicit-Euler update). -/
def stepE (dalpha demiss LAT Xedges : List ℝ) (DX DT : ℝ) (N : ℕ)
    (T : List ℝ) (val : ℝ) : Except NpError (List ℝ) := do
  let SX := val
  let alpha0 := LAT.map (fun l => 0.354 + 0.25 * (1.5 * (Real.sin (radians l)) ^ 2 - 0.5))
  let alpha_logit ← bops (fun a b => a + b) (alpha0.map (fun a => Real.log (a / (1 - a)))) dalpha
  let ALPHA := alpha_logit.map (fun x => 1.0 / (1.0 + Real.exp (-x)))
  let emiss := demiss.map (fun d => 1.0 / (1.0 + Real.exp (-(Real.log (EPSILON / (1 - EPSILON)) + d))))
  let FIN := ALPHA.map (fun a => SX * (1 - a))
  let FOUT ← bops (fun a b => a * b) (emiss.map (fun e => e * SIGMA)) (T.map (fun t => t ^ 4))
  let FDIFF := fdiffL Xedges DX N T
  let s1 ← bops (fun a b => a - b) FIN FOUT
  let s2 ← bops (fun a b => a + b) s1 FDIFF
  bops (fun t u => t + u) T (s2.map (fun u => DT * u))

/-- `budyko_sellers_time_dep(XXS, insol, DT, N)` from the source: build the
grid, split the control vector, set the analytic initial profile, and fold the
time step over the insolation series. The test `X.length < 2` models the
`IndexError` that `DX = X[1] - X[0]` raises when the grid has fewer than two
cells. -/
def budyko_sellers_time_dep (XXS insol : List ℝ) (DT : ℝ) (N : ℕ) :
    Except NpError (List ℝ) :=
  let Xedges := npLinspace (-1) 1 (N + 1)
  let X := List.zipWith (fun a b => 0.5 * (a + b)) Xedges.dropLast (Xedges.drop 1)
  if X.length < 2 then .error .indexError
  else
    let DX := X.getD 1 0 - X.getD 0 0
    let LAT := X.map (fun x => degrees (Real.arcsin x))
    let dalpha := XXS.take N
    let demiss := XXS.drop N
    let T := X.map (fun x => 288.0 + 60.0 * (1 - x ^ 2) - 20.0)
    insol.foldlM (fun Tcur val => stepE dalpha demiss LAT Xedges DX DT N Tcur val) T

/-! ### Index-level model

The same arithmetic written per latitude band, with `Xedges N k` the `k`-th
grid edge and so on. `ALPHA` and `emiss` receive the current temperature state
`T` and forcing `val` of the loop scope in which the source computes them; the
expressions use neither (claim C10). -/

/-- Edge `k` of `np.linspace(-1, 1, N+1)`. -/
def Xedges (N k : ℕ) : ℝ := -1 + 2 * k / N

/-- Cell center `i`: `X = 0.5*(Xedges[:-1] + Xedges[1:])`. -/
def X (N i : ℕ) : ℝ := 0.5 * (Xedges N i + Xedges N (i + 1))

/-- Cell width: `DX = X[1] - X[0]`. -/
def DX (N : ℕ) : ℝ := X N 1 - X N 0

/-- Latitude in degrees: `LAT = np.degrees(np.arcsin(X))`. -/
def LAT (N i : ℕ) : ℝ := degrees (Real.arcsin (X N i))

/-- Baseline albedo: `alpha0 = 0.354 + 0.25*(1.5*np.sin(np.radians(LAT))**2 - 0.5)`. -/
def alpha0 (N i : ℕ) : ℝ :=
  0.354 + 0.25 * (1.5 * (Real.sin (radians (LAT N i))) ^ 2 - 0.5)

/-- Albedo from the logit perturbation, as computed inside the time loop:
`ALPHA = 1/(1 + exp(-(log(alpha0/(1-alpha0)) + dalpha)))`. The loop scope
supplies the current state `T` and forcing `val`, which the expression does
not use. -/
def ALPHA (N : ℕ) (dalpha : ℕ → ℝ) (T : ℕ → ℝ) (val : ℝ) (i : ℕ) : ℝ :=
  1.0 / (1.0 + Real.exp (-(Real.log (alpha0 N i / (1 - alpha0 N i)) + dalpha i)))

/-- Emissivity from the logit perturbation, as computed inside the time loop:
`emiss = 1/(1 + exp(-(log(EPSILON/(1-EPSILON)) + demiss)))`; like `ALPHA` it
ignores the loop state `T` and forcing `val`. -/
def emiss (demiss : ℕ → ℝ) (T : ℕ → ℝ) (val : ℝ) (i : ℕ) : ℝ :=
  1.0 / (1.0 + Real.exp (-(Real.log (EPSILON / (1 - EPSILON)) + demiss i)))

/-- The diffusion stencil per band, matching the source's three branches. -/
def FDIFF (N : ℕ) (T : ℕ → ℝ) (i : ℕ) : ℝ :=
  if i = 0 then
    DIFF * (1 - Xedges N 1 ^ 2) * (T (i + 1) - T i) / (DX N * DX N)
  else if i = N - 1 then
    -DIFF * (1 - Xedges N N ^ 2) * (T i - T (i - 1)) / (DX N * DX N)
  else
    DIFF * ((1 - Xedges N (i + 1) ^ 2) * (T (i + 1) - T i)
      - (1 - Xedges N i ^ 2) * (T i - T (i - 1))) / (DX N * DX N)

/-- Initial analytic profile: `T = 288.0 + 60.0*(1 - X**2) - 20.0`. -/
def Tinit (N i : ℕ) : ℝ := 288.0 + 60.0 * (1 - X N i ^ 2) - 20.0

/-- One explicit-Euler time step per band:
`T + DT*(FIN - FOUT + FDIFF)` with `FIN = SX*(1 - ALPHA)` and
`FOUT = emiss*SIGMA*T**4`. -/
def stepF (N : ℕ) (dalpha demiss : ℕ → ℝ) (DT val : ℝ) (T : ℕ → ℝ) (i : ℕ) : ℝ :=
  T i + DT * ((val * (1 - ALPHA N dalpha T val i)
    - emiss demiss T val i * SIGMA * T i ^ 4) + FDIFF N T i)

/-- The full forward run at the index level: fold the time step over the
insolation series starting from the analytic initial profile. -/
def simulate (N : ℕ) (dalpha demiss : ℕ → ℝ) (DT : ℝ) (insol : List ℝ) : ℕ → ℝ :=
  insol.foldl (fun T val => stepF N dalpha demiss DT val T) (Tinit N)

/-- Modelled from the spec: one time step evaluated directly with the baseline
albedo curve `alpha0` and the baseline scalar emissivity `EPSILON`, with no
logit perturbation (the comparison model for claim C5). -/
def baselineStep (N : ℕ) (DT val : ℝ) (T : ℕ → ℝ) (i : ℕ) : ℝ :=
  T i + DT * ((val * (1 - alpha0 N i) - EPSILON * SIGMA * T i ^ 4) + FDIFF N T i)

/-- Modelled from the spec: the forward run with baseline albedo and
emissivity used directly (the comparison model for claim C5). -/
def simulateBaseline (N : ℕ) (DT : ℝ) (insol : List ℝ) : ℕ → ℝ :=
  insol.foldl (fun T val => baselineStep N DT val T) (Tinit N)

/-- The notebook cost: `J = np.sqrt(np.sum((T_final - TARGET_DT - 273.0)**2))`
over a final temperature profile and an observation target of equal length. -/
def Jcost (Tfinal TARGET : List ℝ) : ℝ :=
  Real.sqrt ((List.zipWith (fun t o => (t - o - 273.0) ^ 2) Tfinal TARGET).sum)

/-- A concrete probe temperature state (`T = (0, 0, 1)` on three bands), used
to exhibit the behaviour of the diffusion stencil at the last band. -/
def Tprobe : ℕ → ℝ := fun i => if i = 2 then 1 else 0

end

/-! ### Bridge between the list-level and the index-level model -/

lemma getD_range_map (g : ℕ → ℝ) (n i : ℕ) :
    ((List.range n).map g).getD i 0 = if i < n then g i else 0 := by
  by_cases h : i < n
  · simp [List.getD_eq_getElem?_getD, List.getElem?_range h, h]
  · rw [if_neg h]
    have hlen : ((List.range n).map g).length ≤ i := by
      simpa using Nat.le_of_not_lt h
    simp [List.getD_eq_getElem?_getD, List.getElem?_eq_none hlen]

lemma zipWith_self_eq_map {α β : Type} (g : α → α → β) :
    ∀ l : List α, List.zipWith g l l = l.map fun a => g a a
  | [] => rfl
  | a :: l => by simp [zipWith_self_eq_map g l]

lemma npLinspace_eq {N : ℕ} (hN : 1 ≤ N) :
    npLinspace (-1) 1 (N + 1) = (List.range (N + 1)).map (Xedges N) := by
  have h1 : N + 1 ≠ 1 := by omega
  unfold npLinspace
  rw [if_neg h1]
  refine List.map_congr_left fun k _ => ?_
  rw [Xedges]
  push_cast
  ring

lemma Xlist_eq {N : ℕ} (hN : 1 ≤ N) :
    List.zipWith (fun a b => 0.5 * (a + b)) (npLinspace (-1) 1 (N + 1)).dropLast
      ((npLinspace (-1) 1 (N + 1)).drop 1) = (List.range N).map (X N) := by
  rw [npLinspace_eq hN]
  have hd : ((List.range (N + 1)).map (Xedges N)).dropLast
      = (List.range N).map (Xedges N) := by
    rw [List.range_succ, List.map_append]
    simp
  have hr : ((List.range (N + 1)).map (Xedges N)).drop 1
      = (List.range N).map fun k => Xedges N (k + 1) := by
    rw [List.range_succ_eq_map, List.map_cons, List.drop_one, List.tail_cons, List.map_map]
    rfl
  rw [hd, hr, List.zipWith_map, zipWith_self_eq_map]
  rfl

lemma take_eq_range_map (l : List ℝ) {n : ℕ} (h : n ≤ l.length) :
    l.take n = (List.range n).map fun i => l.getD i 0 := by
  apply List.ext_getElem
  · simp [Nat.min_eq_left h]
  · intro i h1 h2
    simp only [List.length_take, List.length_map, List.length_range] at h1 h2
    have hl : i < l.length := lt_of_lt_of_le h2 h
    simp [List.getD_eq_getElem?_getD, List.getElem?_eq_getElem hl]

lemma drop_eq_range_map (l : List ℝ) {n : ℕ} (h : l.length = 2 * n) :
    l.drop n = (List.range n).map fun i => l.getD (n + i) 0 := by
  apply List.ext_getElem
  · simp [h]
    omega
  · intro i h1 h2
    simp only [List.length_drop, List.length_map, List.length_range, h] at h1 h2
    have hl : n + i < l.length := by omega
    simp [List.getD_eq_getElem?_getD, List.getElem?_eq_getElem hl]

lemma bops_ok (f : ℝ → ℝ → ℝ) {xs ys : List ℝ} (h : xs.length = ys.length) :
    bops f xs ys = .ok (List.zipWith f xs ys) := by
  unfold bops
  rw [if_pos h]

lemma bops_range_map (f : ℝ → ℝ → ℝ) (g h : ℕ → ℝ) (n : ℕ) :
    bops f ((List.range n).map g) ((List.range n).map h)
      = .ok ((List.range n).map fun i => f (g i) (h i)) := by
  rw [bops_ok f (by simp), List.zipWith_map, zipWith_self_eq_map]

lemma fdiffL_eq {N : ℕ} (hN : 2 ≤ N) (g : ℕ → ℝ) :
    fdiffL ((List.range (N + 1)).map (Xedges N)) (DX N) N ((List.range N).map g)
      = (List.range N).map (FDIFF N g) := by
  unfold fdiffL
  simp only [List.length_map, List.length_range]
  refine List.map_congr_left fun i hi => ?_
  rw [List.mem_range] at hi
  unfold FDIFF
  simp only [getD_range_map]
  split_ifs <;> first | rfl | omega

lemma ok_bind {α β : Type} (a : α) (f : α → Except NpError β) :
    (Except.ok a >>= f : Except NpError β) = f a := rfl

lemma stepE_ok {N : ℕ} (hN : 2 ≤ N) (da de : ℕ → ℝ) (DT v : ℝ) (g : ℕ → ℝ) :
    stepE ((List.range N).map da) ((List.range N).map de)
        ((List.range N).map (LAT N)) ((List.range (N + 1)).map (Xedges N))
        (DX N) DT N ((List.range N).map g) v
      = .ok ((List.range N).map (stepF N da de DT v g)) := by
  simp only [stepE, List.map_map, bops_range_map, ok_bind, fdiffL_eq hN]
  rfl

lemma foldlM_stepE {N : ℕ} (hN : 2 ≤ N) (da de : ℕ → ℝ) (DT : ℝ)
    (insol : List ℝ) (g : ℕ → ℝ) :
    insol.foldlM (fun Tcur val => stepE ((List.range N).map da) ((List.range N).map de)
        ((List.range N).map (LAT N)) ((List.range (N + 1)).map (Xedges N))
        (DX N) DT N Tcur val) ((List.range N).map g)
      = .ok ((List.range N).map
          (insol.foldl (fun T val => stepF N da de DT val T) g)) := by
  induction insol generalizing g with
  | nil => rfl
  | cons v vs ih =>
    simp only [List.foldlM_cons, stepE_ok hN, ok_bind, ih, List.foldl_cons]

/-- With a well-formed control vector (`2 ≤ N`, `XXS.length = 2*N`) the
list-level numpy model runs without error and agrees with the index-level
model `simulate` on every band. -/
lemma budyko_ok {N : ℕ} (XXS insol : List ℝ) (DT : ℝ) (hN : 2 ≤ N)
    (hL : XXS.length = 2 * N) :
    budyko_sellers_time_dep XXS insol DT N
      = .ok ((List.range N).map
          (simulate N (fun i => XXS.getD i 0) (fun i => XXS.getD (N + i) 0) DT insol)) := by
  simp only [budyko_sellers_time_dep]
  rw [Xlist_eq (by omega)]
  rw [if_neg (by simp; omega)]
  rw [npLinspace_eq (show 1 ≤ N by omega)]
  rw [take_eq_range_map XXS (by omega), drop_eq_range_map XXS hL]
  rw [List.map_map, List.map_map]
  have hDX : ((List.range N).map (X N)).getD 1 0 - ((List.range N).map (X N)).getD 0 0
      = DX N := by
    rw [getD_range_map, getD_range_map, if_pos (by omega), if_pos (by omega)]
    rfl
  rw [hDX]
  have hLAT : (List.range N).map ((fun x => degrees (Real.arcsin x)) ∘ X N)
      = (List.range N).map (LAT N) := rfl
  have hT0 : (List.range N).map ((fun x => 288.0 + 60.0 * (1 - x ^ 2) - 20.0) ∘ X N)
      = (List.range N).map (Tinit N) := rfl
  rw [hLAT, hT0]
  rw [foldlM_stepE hN]
  rfl

/-- On an empty forcing series the loop body never runs: for any control
vector at all (no length requirement) the model returns the initial analytic
profile as soon as `2 ≤ N`. -/
lemma budyko_nil {N : ℕ} (XXS : List ℝ) (DT : ℝ) (hN : 2 ≤ N) :
    budyko_sellers_time_dep XXS [] DT N = .ok ((List.range N).map (Tinit N)) := by
  simp only [budyko_sellers_time_dep]
  rw [Xlist_eq (by omega)]
  rw [if_neg (by simp; omega)]
  simp only [List.map_map]
  rfl

/-- When the grid has fewer than two cells (`N < 2`), `DX = X[1] - X[0]`
raises an index error immediately, whatever the other arguments are. -/
lemma budyko_small_grid (XXS insol : List ℝ) (DT : ℝ) {N : ℕ} (hN : N < 2) :
    budyko_sellers_time_dep XXS insol DT N = .error .indexError := by
  simp only [budyko_sellers_time_dep]
  have hlen : (List.zipWith (fun a b => 0.5 * (a + b)) (npLinspace (-1) 1 (N + 1)).dropLast
      ((npLinspace (-1) 1 (N + 1)).drop 1)).length < 2 := by
    have h1 : (npLinspace (-1) 1 (N + 1)).length = N + 1 := by
      unfold npLinspace
      split_ifs with h
      · simp
        omega
      · simp
    simp [List.length_zipWith, h1]
    omega
  rw [if_pos hlen]

/-! ### Arithmetic helper lemmas -/

lemma radians_degrees (r : ℝ) : radians (degrees r) = r := by
  unfold radians degrees
  field_simp

lemma sin_radians_LAT {N i : ℕ} (h1 : -1 ≤ X N i) (h2 : X N i ≤ 1) :
    Real.sin (radians (LAT N i)) = X N i := by
  rw [LAT, radians_degrees, Real.sin_arcsin h1 h2]

lemma logistic_pos (x : ℝ) : 0 < 1.0 / (1.0 + Real.exp (-x)) := by
  have he := Real.exp_pos (-x)
  positivity

lemma logistic_lt_one (x : ℝ) : 1.0 / (1.0 + Real.exp (-x)) < 1 := by
  have he := Real.exp_pos (-x)
  rw [div_lt_one (by positivity)]
  norm_num
  exact he

lemma alpha0_mem (N i : ℕ) : 0 < alpha0 N i ∧ alpha0 N i < 1 := by
  have h1 : Real.sin (radians (LAT N i)) ^ 2 ≤ 1 := Real.sin_sq_le_one _
  have h2 : 0 ≤ Real.sin (radians (LAT N i)) ^ 2 := sq_nonneg _
  unfold alpha0
  constructor <;> nlinarith

lemma logistic_log {a : ℝ} (h0 : 0 < a) (h1 : a < 1) :
    1.0 / (1.0 + Real.exp (-(Real.log (a / (1 - a)) + 0))) = a := by
  have hr : 0 < a / (1 - a) := div_pos h0 (by linarith)
  rw [add_zero, Real.exp_neg, Real.exp_log hr]
  have ha : a ≠ 0 := ne_of_gt h0
  have hb : (1 : ℝ) - a ≠ 0 := by
    intro h
    rw [sub_eq_zero] at h
    exact (ne_of_lt h1) h.symm
  rw [inv_div]
  field_simp
  ring

lemma ALPHA_zero (N : ℕ) (T : ℕ → ℝ) (v : ℝ) (i : ℕ) :
    ALPHA N (fun j => 0) T v i = alpha0 N i :=
  logistic_log (alpha0_mem N i).1 (alpha0_mem N i).2

lemma emiss_zero (T : ℕ → ℝ) (v : ℝ) (i : ℕ) :
    emiss (fun j => 0) T v i = EPSILON :=
  logistic_log (by norm_num [EPSILON]) (by norm_num [EPSILON])

lemma getD_replicate_zero (n i : ℕ) : (List.replicate n (0 : ℝ)).getD i 0 = 0 := by
  by_cases h : i < n <;>
    simp [List.getD_eq_getElem?_getD, List.getElem?_replicate, h]

/-! ### Claim theorems -/

/-- Claim C4: for every control vector (arbitrary real perturbations) and
every latitude band, the derived albedo and emissivity computed inside the
time loop lie strictly within the open interval `(0, 1)`, in exact real
arithmetic. -/
theorem claim_C4_bounded (N : ℕ) (da de : ℕ → ℝ) (T : ℕ → ℝ) (v : ℝ) (i : ℕ) :
    (0 < ALPHA N da T v i ∧ ALPHA N da T v i < 1)
    ∧ (0 < emiss de T v i ∧ emiss de T v i < 1) :=
  ⟨⟨logistic_pos _, logistic_lt_one _⟩, ⟨logistic_pos _, logistic_lt_one _⟩⟩

/-- Claim C10: within a call, the albedo and emissivity computed inside the
time loop are invariant across time steps — they never depend on the current
temperature state or on the forcing value of the step, so every step uses
identical values (no temperature-albedo feedback). -/
theorem claim_C10_albedo_invariant (N : ℕ) (da de : ℕ → ℝ)
    (T Tother : ℕ → ℝ) (v vother : ℝ) :
    ALPHA N da T v = ALPHA N da Tother vother
    ∧ emiss de T v = emiss de Tother vother :=
  ⟨rfl, rfl⟩

/-- Claim C8: for every `N ≥ 2` the latitude grid consists of `N` cell
centers that are midpoints of `N+1` equally spaced edges spanning `[-1, 1]`
in sine of latitude, every cell has the same width `DX = 2/N`, and each
cell's latitude is `arcsin` of its center converted to degrees. -/
theorem claim_C8_grid {N : ℕ} (hN : 2 ≤ N) :
    npLinspace (-1) 1 (N + 1) = (List.range (N + 1)).map (Xedges N)
    ∧ (∀ k, Xedges N k = -1 + 2 * k / N)
    ∧ Xedges N 0 = -1 ∧ Xedges N N = 1
    ∧ (∀ i, X N i = (Xedges N i + Xedges N (i + 1)) / 2)
    ∧ DX N = 2 / N
    ∧ (∀ i, X N (i + 1) - X N i = 2 / N)
    ∧ (∀ i, LAT N i = degrees (Real.arcsin (X N i))) := by
  have hNR : (N : ℝ) ≠ 0 := Nat.cast_ne_zero.mpr (by omega)
  refine ⟨npLinspace_eq (by omega), fun k => rfl, ?_, ?_, fun i => ?_, ?_, fun i => ?_,
    fun i => rfl⟩
  · simp [Xedges]
  · rw [Xedges]
    field_simp
    norm_num
  · rw [X]
    ring
  · rw [DX, X, X, Xedges, Xedges, Xedges]
    push_cast
    field_simp
    ring
  · rw [X, X, Xedges, Xedges, Xedges]
    push_cast
    field_simp
    ring

/-- Witness for C8 at `N = 4`. -/
theorem claim_C8_grid_witness :
    (2 ≤ 4)
    ∧ (npLinspace (-1) 1 (4 + 1) = (List.range (4 + 1)).map (Xedges 4)
      ∧ (∀ k, Xedges 4 k = -1 + 2 * k / 4)
      ∧ Xedges 4 0 = -1 ∧ Xedges 4 4 = 1
      ∧ (∀ i, X 4 i = (Xedges 4 i + Xedges 4 (i + 1)) / 2)
      ∧ DX 4 = 2 / 4
      ∧ (∀ i, X 4 (i + 1) - X 4 i = 2 / 4)
      ∧ (∀ i, LAT 4 i = degrees (Real.arcsin (X 4 i)))) :=
  ⟨by norm_num, claim_C8_grid (by norm_num)⟩

/-- Claim C9: with a control vector of length `2N`, `N ≥ 2`, and an empty
forcing series, the simulator raises no error and returns exactly the initial
analytic profile `T[i] = 288 + 60*(1 - X[i]^2) - 20`, since the loop body
never runs. -/
theorem claim_C9_empty_forcing (XXS : List ℝ) (DT : ℝ) (N : ℕ)
    (hN : 2 ≤ N) (hL : XXS.length = 2 * N) :
    budyko_sellers_time_dep XXS [] DT N = .ok ((List.range N).map (Tinit N))
    ∧ ∀ i, Tinit N i = 288.0 + 60.0 * (1 - X N i ^ 2) - 20.0 :=
  ⟨budyko_nil XXS DT hN, fun i => rfl⟩

/-- Witness for C9 at `N = 4` with the zero control vector. -/
theorem claim_C9_empty_forcing_witness :
    ((2 ≤ 4) ∧ (List.replicate 8 (0 : ℝ)).length = 2 * 4)
    ∧ (budyko_sellers_time_dep (List.replicate 8 (0 : ℝ)) [] 1 4
        = .ok ((List.range 4).map (Tinit 4))
      ∧ ∀ i, Tinit 4 i = 288.0 + 60.0 * (1 - X 4 i ^ 2) - 20.0) :=
  ⟨⟨by norm_num, by simp⟩,
   claim_C9_empty_forcing (List.replicate 8 0) 1 4 (by norm_num) (by simp)⟩

/-- Claim C7: with a well-formed control vector the simulator runs without
error and equals, band by band, the fold of the explicit-Euler step
`T_new[i] = T[i] + DT*(val*(1-ALPHA[i]) - emiss[i]*SIGMA*T[i]^4 + FDIFF[i])`
over the forcing series, returning the state after the last forcing value. -/
theorem claim_C7_euler_update (XXS insol : List ℝ) (DT : ℝ) (N : ℕ)
    (hN : 2 ≤ N) (hL : XXS.length = 2 * N) :
    budyko_sellers_time_dep XXS insol DT N
      = .ok ((List.range N).map
          (simulate N (fun i => XXS.getD i 0) (fun i => XXS.getD (N + i) 0) DT insol))
    ∧ (∀ (da de : ℕ → ℝ) (v : ℝ) (T : ℕ → ℝ) (i : ℕ),
        stepF N da de DT v T i
          = T i + DT * ((v * (1 - ALPHA N da T v i)
              - emiss de T v i * SIGMA * T i ^ 4) + FDIFF N T i))
    ∧ (∀ da de : ℕ → ℝ,
        simulate N da de DT insol
          = insol.foldl (fun T v => stepF N da de DT v T) (Tinit N)) :=
  ⟨budyko_ok XXS insol DT hN hL,
   fun _ _ _ _ _ => rfl,
   fun _ _ => rfl⟩

/-- Witness for C7 at `N = 2`, zero control, one forcing value. -/
theorem claim_C7_euler_update_witness :
    ((2 ≤ 2) ∧ (List.replicate 4 (0 : ℝ)).length = 2 * 2)
    ∧ budyko_sellers_time_dep (List.replicate 4 (0 : ℝ)) [1360.0] 1 2
        = .ok ((List.range 2).map
            (simulate 2 (fun i => (List.replicate 4 (0 : ℝ)).getD i 0)
              (fun i => (List.replicate 4 (0 : ℝ)).getD (2 + i) 0) 1 [1360.0])) :=
  ⟨⟨by norm_num, by simp⟩,
   (claim_C7_euler_update (List.replicate 4 0) [1360.0] 1 2 (by norm_num) (by simp)).1⟩

/-- Claim C5: with the all-zero control vector the logit-then-logistic round
trip is the identity — at every step the derived albedo equals the baseline
curve `alpha0` and the derived emissivity equals the baseline scalar
`EPSILON` — so the simulator reproduces the run obtained by using the
baseline albedo and emissivity directly. -/
theorem claim_C5_zero_control_baseline (N : ℕ) (insol : List ℝ) (DT : ℝ)
    (hN : 2 ≤ N) :
    (∀ (T : ℕ → ℝ) (v : ℝ) (i : ℕ), ALPHA N (fun j => 0) T v i = alpha0 N i)
    ∧ (∀ (T : ℕ → ℝ) (v : ℝ) (i : ℕ), emiss (fun j => 0) T v i = EPSILON)
    ∧ budyko_sellers_time_dep (List.replicate (2 * N) 0) insol DT N
        = .ok ((List.range N).map (simulateBaseline N DT insol)) := by
  refine ⟨fun T v i => ALPHA_zero N T v i, fun T v i => emiss_zero T v i, ?_⟩
  rw [budyko_ok _ _ _ hN (by simp)]
  have hda : (fun i => (List.replicate (2 * N) (0 : ℝ)).getD i 0) = fun j : ℕ => (0 : ℝ) := by
    funext i
    exact getD_replicate_zero _ _
  have hde : (fun i => (List.replicate (2 * N) (0 : ℝ)).getD (N + i) 0)
      = fun j : ℕ => (0 : ℝ) := by
    funext i
    exact getD_replicate_zero _ _
  rw [hda, hde]
  have hstep : (fun (T : ℕ → ℝ) (v : ℝ) => stepF N (fun j => 0) (fun j => 0) DT v T)
      = fun (T : ℕ → ℝ) (v : ℝ) => baselineStep N DT v T := by
    funext T v
    funext i
    rw [stepF, baselineStep, ALPHA_zero, emiss_zero]
  rw [simulate, simulateBaseline]
  rw [hstep]

/-- Witness for C5 at `N = 4`, one forcing value. -/
theorem claim_C5_zero_control_baseline_witness :
    (2 ≤ 4)
    ∧ budyko_sellers_time_dep (List.replicate (2 * 4) 0) [1360.0] 1 4
        = .ok ((List.range 4).map (simulateBaseline 4 1 [1360.0])) :=
  ⟨by norm_num, (claim_C5_zero_control_baseline 4 [1360.0] 1 (by norm_num)).2.2⟩

/-- Claim C6: the notebook cost of a control vector is the Euclidean norm of
the per-band difference between the simulated final temperature shifted by
the fixed 273 K offset and the observation: the code's
`(T_final - TARGET - 273)^2` equals the claim's `((T_final - 273) - TARGET)^2`
band by band, the offset is applied exactly once, and the result is a
non-negative scalar. -/
theorem claim_C6_cost (XXS insol : List ℝ) (DT : ℝ) (N : ℕ) (target Tf : List ℝ)
    (hsim : budyko_sellers_time_dep XXS insol DT N = .ok Tf) :
    Jcost Tf target
      = Real.sqrt ((List.zipWith (fun t o => ((t - 273.0) - o) ^ 2) Tf target).sum)
    ∧ 0 ≤ Jcost Tf target := by
  constructor
  · rw [Jcost]
    have hfun : (fun (t o : ℝ) => (t - o - 273.0) ^ 2)
        = fun (t o : ℝ) => ((t - 273.0) - o) ^ 2 := by
      funext t o
      ring
    rw [hfun]
  · exact Real.sqrt_nonneg _

/-- Witness for C6: the simulator output for the zero control vector, empty
forcing, `N = 4`, against a zero observation vector. -/
theorem claim_C6_cost_witness :
    budyko_sellers_time_dep (List.replicate 8 (0 : ℝ)) [] 1 4
        = .ok ((List.range 4).map (Tinit 4))
    ∧ (Jcost ((List.range 4).map (Tinit 4)) (List.replicate 4 0)
        = Real.sqrt ((List.zipWith (fun t o => ((t - 273.0) - o) ^ 2)
            ((List.range 4).map (Tinit 4)) (List.replicate 4 0)).sum)
      ∧ 0 ≤ Jcost ((List.range 4).map (Tinit 4)) (List.replicate 4 0)) :=
  ⟨budyko_nil _ _ (by norm_num),
   claim_C6_cost (List.replicate 8 0) [] 1 4 (List.replicate 4 0) _
     (budyko_nil _ _ (by norm_num))⟩

/-- Claim C3 is false as stated: a control vector whose length differs from
`2N` is not rejected — with an empty forcing series the call returns a
complete result (the initial profile), signalling nothing. -/
theorem claim_C3_counterexample :
    (List.replicate 5 (0 : ℝ)).length ≠ 2 * 4
    ∧ budyko_sellers_time_dep (List.replicate 5 (0 : ℝ)) [] 1 4
        = .ok ((List.range 4).map (Tinit 4)) :=
  ⟨by simp, budyko_nil _ _ (by norm_num)⟩

/-- Claim C3 amended: the simulator performs no control-length validation
(a wrong-length control vector can produce a complete result), while any
`N < 2` fails immediately with an index error — an unnamed `IndexError` from
`X[1]`, not a dedicated `InvalidGrid` — and returns no partial result. -/
theorem claim_C3_amended :
    (budyko_sellers_time_dep (List.replicate 5 (0 : ℝ)) [] 1 4
        = .ok ((List.range 4).map (Tinit 4)))
    ∧ ∀ (XXS insol : List ℝ) (DT : ℝ) (N : ℕ), N < 2 →
        budyko_sellers_time_dep XXS insol DT N = .error .indexError :=
  ⟨budyko_nil _ _ (by norm_num),
   fun XXS insol DT N hN => budyko_small_grid XXS insol DT hN⟩

/-- Witness for the amended C3 at `N = 1`. -/
theorem claim_C3_amended_witness :
    (1 < 2) ∧ budyko_sellers_time_dep [] [] 1 1 = .error .indexError :=
  ⟨by norm_num, claim_C3_amended.2 [] [] 1 1 (by norm_num)⟩

/-- Claim C1 names a code bug: on `N = 3` with the probe state `T = (0,0,1)`
the code's stencil matches the claimed formulas at band 0 and at the interior
band, but at the last band it evaluates to `0` because the source weights the
one-sided difference by `1 - Xedges[N]^2 = 0` (the pole edge) instead of
`1 - Xedges[N-1]^2`; the claimed zero-flux one-sided value is `-1.2 ≠ 0`. -/
theorem claim_C1_boundary_stencil_bug :
    FDIFF 3 Tprobe 0
      = DIFF * (1 - Xedges 3 1 ^ 2) * (Tprobe 1 - Tprobe 0) / (DX 3 * DX 3)
    ∧ FDIFF 3 Tprobe 1
      = DIFF * ((1 - Xedges 3 2 ^ 2) * (Tprobe 2 - Tprobe 1)
          - (1 - Xedges 3 1 ^ 2) * (Tprobe 1 - Tprobe 0)) / (DX 3 * DX 3)
    ∧ FDIFF 3 Tprobe 2 = 0
    ∧ -DIFF * (1 - Xedges 3 2 ^ 2) * (Tprobe 2 - Tprobe 1) / (DX 3 * DX 3) = -1.2 := by
  refine ⟨?_, ?_, ?_, ?_⟩
  · norm_num [FDIFF]
  · norm_num [FDIFF]
  · norm_num [FDIFF, Tprobe, Xedges, DX, X, DIFF]
  · norm_num [Tprobe, Xedges, DX, X, DIFF]

/-- Claim C2 names a code bug: for `N = 4`, forcing `[1360.0]`, `dt = 1` and
the zero control vector, the returned profile is symmetric at the inner pair
(`T[1] = T[2]`) but not at the outer pair: the missing diffusion at the last
band (see C1) makes `T[0] - T[3] = 54`, so the output is not symmetric about
the equator index pair. -/
theorem claim_C2_equator_symmetry_bug :
    budyko_sellers_time_dep (List.replicate 8 (0 : ℝ)) [1360.0] 1 4
      = .ok ((List.range 4).map (simulate 4 (fun j => 0) (fun j => 0) 1 [1360.0]))
    ∧ simulate 4 (fun j => 0) (fun j => 0) 1 [1360.0] 1
        = simulate 4 (fun j => 0) (fun j => 0) 1 [1360.0] 2
    ∧ simulate 4 (fun j => 0) (fun j => 0) 1 [1360.0] 0
        - simulate 4 (fun j => 0) (fun j => 0) 1 [1360.0] 3 = 54
    ∧ simulate 4 (fun j => 0) (fun j => 0) 1 [1360.0] 0
        ≠ simulate 4 (fun j => 0) (fun j => 0) 1 [1360.0] 3 := by
  have hda : (fun i => (List.replicate 8 (0 : ℝ)).getD i 0) = fun j : ℕ => (0 : ℝ) := by
    funext i
    exact getD_replicate_zero _ _
  have hde : (fun i => (List.replicate 8 (0 : ℝ)).getD (4 + i) 0) = fun j : ℕ => (0 : ℝ) := by
    funext i
    exact getD_replicate_zero _ _
  have hfirst : budyko_sellers_time_dep (List.replicate 8 (0 : ℝ)) [1360.0] 1 4
      = .ok ((List.range 4).map (simulate 4 (fun j => 0) (fun j => 0) 1 [1360.0])) := by
    rw [budyko_ok _ _ _ (by norm_num) (by simp)]
    rw [hda, hde]
  have hsim : ∀ i, simulate 4 (fun j => 0) (fun j => 0) 1 [1360.0] i
      = stepF 4 (fun j => 0) (fun j => 0) 1 1360.0 (Tinit 4) i := fun i => rfl
  have hs0 : Real.sin (radians (LAT 4 0)) = X 4 0 :=
    sin_radians_LAT (by norm_num [X, Xedges]) (by norm_num [X, Xedges])
  have hs1 : Real.sin (radians (LAT 4 1)) = X 4 1 :=
    sin_radians_LAT (by norm_num [X, Xedges]) (by norm_num [X, Xedges])
  have hs2 : Real.sin (radians (LAT 4 2)) = X 4 2 :=
    sin_radians_LAT (by norm_num [X, Xedges]) (by norm_num [X, Xedges])
  have hs3 : Real.sin (radians (LAT 4 3)) = X 4 3 :=
    sin_radians_LAT (by norm_num [X, Xedges]) (by norm_num [X, Xedges])
  have ha03 : alpha0 4 0 = alpha0 4 3 := by
    rw [alpha0, alpha0, hs0, hs3]
    norm_num [X, Xedges]
  have ha12 : alpha0 4 1 = alpha0 4 2 := by
    rw [alpha0, alpha0, hs1, hs2]
    norm_num [X, Xedges]
  have hA03 : ALPHA 4 (fun j => 0) (Tinit 4) 1360.0 0
      = ALPHA 4 (fun j => 0) (Tinit 4) 1360.0 3 := by
    rw [ALPHA, ALPHA, ha03]
  have hA12 : ALPHA 4 (fun j => 0) (Tinit 4) 1360.0 1
      = ALPHA 4 (fun j => 0) (Tinit 4) 1360.0 2 := by
    rw [ALPHA, ALPHA, ha12]
  have hE03 : emiss (fun j => 0) (Tinit 4) 1360.0 0
      = emiss (fun j => 0) (Tinit 4) 1360.0 3 := rfl
  have hE12 : emiss (fun j => 0) (Tinit 4) 1360.0 1
      = emiss (fun j => 0) (Tinit 4) 1360.0 2 := rfl
  have hT03 : Tinit 4 0 = Tinit 4 3 := by norm_num [Tinit, X, Xedges]
  have hT12 : Tinit 4 1 = Tinit 4 2 := by norm_num [Tinit, X, Xedges]
  have hF0 : FDIFF 4 (Tinit 4) 0 = 54 := by
    norm_num [FDIFF, Tinit, X, Xedges, DX, DIFF]
  have hF1 : FDIFF 4 (Tinit 4) 1 = -54 := by
    norm_num [FDIFF, Tinit, X, Xedges, DX, DIFF]
  have hF2 : FDIFF 4 (Tinit 4) 2 = -54 := by
    norm_num [FDIFF, Tinit, X, Xedges, DX, DIFF]
  have hF3 : FDIFF 4 (Tinit 4) 3 = 0 := by
    norm_num [FDIFF, Tinit, X, Xedges, DX, DIFF]
  have hdiff : stepF 4 (fun j => 0) (fun j => 0) 1 1360.0 (Tinit 4) 0
      - stepF 4 (fun j => 0) (fun j => 0) 1 1360.0 (Tinit 4) 3 = 54 := by
    rw [stepF, stepF, hA03, hE03, hT03, hF0, hF3]
    ring
  have hsym : stepF 4 (fun j => 0) (fun j => 0) 1 1360.0 (Tinit 4) 1
      = stepF 4 (fun j => 0) (fun j => 0) 1 1360.0 (Tinit 4) 2 := by
    rw [stepF, stepF, hA12, hE12, hT12, hF1, hF2]
  refine ⟨hfirst, ?_, ?_, ?_⟩
  · rw [hsim 1, hsim 2]
    exact hsym
  · rw [hsim 0, hsim 3]
    exact hdiff
  · rw [hsim 0, hsim 3]
    intro heq
    rw [heq, sub_self] at hdiff
    norm_num at hdiff

end EBM
